import Mathlib

/-!
Shallow embedding of `src/tun2socks/lwip/src/darwin/src/sys_arch.c`,
the darwin port of the lwIP OS abstraction layer consisting of the
millisecond clock `sys_now` and the initialization hook `sys_init`:

  u32_t sys_now(void) {
      clock_t i = clock() / (CLOCKS_PER_SEC / 1000);
      return (u32_t)i;
  }

  void sys_init(void) { }

The host counter `clock()` (a `clock_t`, unsigned on darwin) is modelled
as a natural number of ticks; the host constant `CLOCKS_PER_SEC` is a
parameter (1000000 on the darwin target, per POSIX).  The C cast
`(u32_t)i` of a non-negative value truncates modulo 2^32.  C integer
division by zero is undefined behaviour, so the embedding returns
`Option`: `none` exactly when the divisor `CLOCKS_PER_SEC / 1000` is
zero, i.e. when `CLOCKS_PER_SEC < 1000`.
-/

/-- Modulus of the unsigned 32-bit type `u32_t`. -/
def U32_MOD : Nat := 2 ^ 32

/-- Host constant `CLOCKS_PER_SEC` on the darwin target (POSIX fixes it
to one million). -/
def CLOCKS_PER_SEC_darwin : Nat := 1000000

/-- Core of `sys_now`, as a function of the value `c` that the host
counter `clock()` returns at the moment of the call and of the host
constant `cps = CLOCKS_PER_SEC`.  Mirrors
`clock_t i = clock() / (CLOCKS_PER_SEC / 1000); return (u32_t)i;`.
The division is C integer division; when the divisor `cps / 1000` is
zero the C expression is undefined behaviour, embedded as `none`. -/
def sys_now_val (c cps : Nat) : Option Nat :=
  let d := cps / 1000
  if d = 0 then none
  else some ((c / d) % U32_MOD)

/-- State of the host environment as seen through this module:
the current value of the process CPU-time counter `clock()`, the host
constant `CLOCKS_PER_SEC`, and `rest`, standing for every other piece
of host and program state (which `sys_arch.c` never reads or writes). -/
structure HostState where
  clocks : Nat
  clocksPerSec : Nat
  rest : Nat
  deriving Repr, DecidableEq

/-- The call `sys_now()` against a host state: it reads `clock()` and
`CLOCKS_PER_SEC` from the state, changes nothing, and produces the
`u32_t` reading (or `none` on the undefined division). -/
def sys_now (s : HostState) : HostState × Option Nat :=
  (s, sys_now_val s.clocks s.clocksPerSec)

/-- The call `sys_init()` against a host state: the body is empty, so
the state is unchanged; the `Option Unit` result is the error channel
of the embedding, and the source has no failing branch, so the result
is always `some ()`. -/
def sys_init (s : HostState) : HostState × Option Unit :=
  (s, some ())

/-- Iterating the state effect of `sys_init` a given number of times
(the scenario of the idempotency claim). -/
def sys_init_iter : Nat → HostState → HostState
  | 0, s => s
  | n + 1, s => sys_init_iter n (sys_init s).1

/-- Unsigned 32-bit subtraction `b - a` of two `u32_t` readings, the
operation lwIP callers use to compute elapsed intervals. -/
def u32_sub (b a : Nat) : Nat :=
  (b % U32_MOD + (U32_MOD - a % U32_MOD)) % U32_MOD

/-!
Theorems settling the claims.
-/

/-- Claim C1 (counterexample): the claim quantifies over every host
value of `CLOCKS_PER_SEC`, but at `CLOCKS_PER_SEC = 500` the divisor
`CLOCKS_PER_SEC / 1000` is `0` and the C division is undefined
behaviour, so `sys_now` does not return the claimed u32 value at the
counter value `c = 0`. -/
theorem sys_now_cps500_undefined : sys_now_val 0 500 = none := by decide

/-- Claim C1 (amended): for every counter value `c` and every host
constant `CLOCKS_PER_SEC ≥ 1000` (so that the divisor
`CLOCKS_PER_SEC / 1000` is nonzero, as on darwin where it is 1000000),
`sys_now()` returns the truncation to u32 of
`c / (CLOCKS_PER_SEC / 1000)`, i.e. the process CPU time scaled to
milliseconds. -/
theorem sys_now_returns_scaled_millis (c cps : Nat) (h : 1000 ≤ cps) :
    sys_now_val c cps = some (c / (cps / 1000) % U32_MOD) := by
  have hd : cps / 1000 ≠ 0 := Nat.ne_of_gt (Nat.div_pos h (by norm_num))
  simp [sys_now_val, hd]

/-- Witness for claim C1 at `c = 123456`, `CLOCKS_PER_SEC = 1000000`. -/
theorem sys_now_returns_scaled_millis_witness :
    1000 ≤ 1000000 ∧
      sys_now_val 123456 1000000 = some (123456 / (1000000 / 1000) % U32_MOD) :=
  ⟨by decide, sys_now_returns_scaled_millis 123456 1000000 (by decide)⟩

/-- Claim C2 (code evaluated at the failing input): in the concrete
sleep scenario the underlying counter is the process CPU-time counter
`clock()`, which does not advance while the process sleeps.  With
`CLOCKS_PER_SEC = 1000000`, a counter of 1000000 ticks at call A and a
100ms real-time sleep that consumes only 50 ticks (0.05ms) of CPU time
gives 1000050 ticks at call B; both readings are 1000ms, the unsigned
32-bit difference is 0, and the claimed lower bound of 90ms fails. -/
theorem sys_now_sleep_scenario_cpu_clock :
    sys_now_val 1000000 CLOCKS_PER_SEC_darwin = some 1000 ∧
      sys_now_val 1000050 CLOCKS_PER_SEC_darwin = some 1000 ∧
      u32_sub 1000 1000 = 0 ∧ ¬ 90 ≤ u32_sub 1000 1000 := by decide

/-- Claim C3 (counterexample): at the host value `CLOCKS_PER_SEC = 999`
the divisor `CLOCKS_PER_SEC / 1000` is `0`, the division in `sys_now`
is undefined behaviour, and no u32 value is returned, so the claim
fails when quantified over every host value of `CLOCKS_PER_SEC`. -/
theorem sys_now_cps999_undefined : sys_now_val 7 999 = none := by decide

/-- Claim C3 (amended): for every counter value `c` and every host
constant `CLOCKS_PER_SEC ≥ 1000`, the computation in `sys_now`
(including the division by `CLOCKS_PER_SEC / 1000`) is defined and
returns a valid u32 value below `2^32`; no error branch is
reachable. -/
theorem sys_now_total_u32 (c cps : Nat) (h : 1000 ≤ cps) :
    ∃ v, sys_now_val c cps = some v ∧ v < U32_MOD := by
  have hd : cps / 1000 ≠ 0 := Nat.ne_of_gt (Nat.div_pos h (by norm_num))
  refine ⟨c / (cps / 1000) % U32_MOD, by simp [sys_now_val, hd], ?_⟩
  exact Nat.mod_lt _ (by decide)

/-- Witness for claim C3 at `c = 5`, `CLOCKS_PER_SEC = 2000`. -/
theorem sys_now_total_u32_witness :
    1000 ≤ 2000 ∧ ∃ v, sys_now_val 5 2000 = some v ∧ v < U32_MOD :=
  ⟨by decide, sys_now_total_u32 5 2000 (by decide)⟩

/-- Claim C4: for every counter value `c` (with the host constant
`CLOCKS_PER_SEC ≥ 1000` so the divisor is nonzero), the returned
reading equals `(c / (CLOCKS_PER_SEC / 1000)) mod 2^32`, and the
computation is 2^32-periodic in the scaled counter — advancing the
counter by `2^32` milliseconds worth of ticks returns the identical
reading, with no branch detecting or special-casing the wraparound. -/
theorem sys_now_wraps_mod_u32 (c cps : Nat) (h : 1000 ≤ cps) :
    sys_now_val c cps = some (c / (cps / 1000) % U32_MOD) ∧
      sys_now_val (cps / 1000 * U32_MOD + c) cps = sys_now_val c cps := by
  have hd : 0 < cps / 1000 := Nat.div_pos h (by norm_num)
  have hne : cps / 1000 ≠ 0 := Nat.ne_of_gt hd
  refine ⟨by simp [sys_now_val, hne], ?_⟩
  simp [sys_now_val, hne, Nat.mul_add_div hd, Nat.add_mod_left]

/-- Witness for claim C4 at `c = 3`, `CLOCKS_PER_SEC = 1000`. -/
theorem sys_now_wraps_mod_u32_witness :
    1000 ≤ 1000 ∧
      (sys_now_val 3 1000 = some (3 / (1000 / 1000) % U32_MOD) ∧
        sys_now_val (1000 / 1000 * U32_MOD + 3) 1000 = sys_now_val 3 1000) :=
  ⟨by decide, sys_now_wraps_mod_u32 3 1000 (by decide)⟩

/-- Claim C5: `sys_now` readings are monotonically non-decreasing —
for every two counter values `c1 ≤ c2` (the host counter never
decreases) whose scaled millisecond values both lie below `2^32`
(no wraparound between them), the reading at `c1` is at most the
reading at `c2`. -/
theorem sys_now_monotone (c1 c2 cps : Nat) (hcps : 1000 ≤ cps)
    (hle : c1 ≤ c2) (h1 : c1 / (cps / 1000) < U32_MOD)
    (h2 : c2 / (cps / 1000) < U32_MOD) :
    ∃ v1 v2, sys_now_val c1 cps = some v1 ∧ sys_now_val c2 cps = some v2 ∧
      v1 ≤ v2 := by
  have hd : cps / 1000 ≠ 0 := Nat.ne_of_gt (Nat.div_pos hcps (by norm_num))
  refine ⟨c1 / (cps / 1000) % U32_MOD, c2 / (cps / 1000) % U32_MOD,
    by simp [sys_now_val, hd], by simp [sys_now_val, hd], ?_⟩
  rw [Nat.mod_eq_of_lt h1, Nat.mod_eq_of_lt h2]
  exact Nat.div_le_div_right hle

/-- Witness for claim C5 at `c1 = 5000`, `c2 = 6000`,
`CLOCKS_PER_SEC = 1000000`. -/
theorem sys_now_monotone_witness :
    1000 ≤ 1000000 ∧ 5000 ≤ 6000 ∧
      5000 / (1000000 / 1000) < U32_MOD ∧
      6000 / (1000000 / 1000) < U32_MOD ∧
      ∃ v1 v2, sys_now_val 5000 1000000 = some v1 ∧
        sys_now_val 6000 1000000 = some v2 ∧ v1 ≤ v2 :=
  ⟨by decide, by decide, by decide, by decide,
    sys_now_monotone 5000 6000 1000000 (by decide) (by decide) (by decide)
      (by decide)⟩

/-- Claim C6: when `CLOCKS_PER_SEC = 1000 * m` is a positive multiple
of 1000, increasing the counter by exactly `CLOCKS_PER_SEC / 1000 = m`
ticks (one millisecond of host counter time) increments the u32
reading by exactly 1 (modulo the 2^32 wrap of the u32 reading, and
exactly `v + 1` whenever that does not wrap), so the resolution is
1ms — in particular not coarser than 50ms. -/
theorem sys_now_millisecond_resolution (c m : Nat) (hm : 0 < m) :
    ∃ v, sys_now_val c (1000 * m) = some v ∧
      sys_now_val (c + m) (1000 * m) = some ((v + 1) % U32_MOD) ∧
      (v + 1 < U32_MOD → sys_now_val (c + m) (1000 * m) = some (v + 1)) := by
  have hdd : 1000 * m / 1000 = m := Nat.mul_div_cancel_left m (by norm_num)
  have hmne : m ≠ 0 := Nat.ne_of_gt hm
  have hstep : (c + m) / m = c / m + 1 := Nat.add_div_right c hm
  have hkey : sys_now_val (c + m) (1000 * m) =
      some ((c / m % U32_MOD + 1) % U32_MOD) := by
    simp only [sys_now_val, hdd, hmne, if_false, hstep, U32_MOD]
    rw [Nat.add_mod]
    norm_num
  refine ⟨c / m % U32_MOD, by simp [sys_now_val, hdd, hmne], hkey, ?_⟩
  intro hlt
  rw [hkey, Nat.mod_eq_of_lt hlt]

/-- Witness for claim C6 at `c = 2500`, `m = 1000`
(`CLOCKS_PER_SEC = 1000000`). -/
theorem sys_now_millisecond_resolution_witness :
    0 < 1000 ∧
      ∃ v, sys_now_val 2500 (1000 * 1000) = some v ∧
        sys_now_val (2500 + 1000) (1000 * 1000) = some ((v + 1) % U32_MOD) ∧
        (v + 1 < U32_MOD →
          sys_now_val (2500 + 1000) (1000 * 1000) = some (v + 1)) :=
  ⟨by decide, sys_now_millisecond_resolution 2500 1000 (by decide)⟩

/-- Claim C7: `sys_init` has no externally observable side effect —
for every host state `s`, executing it leaves the state, and in
particular each of its components, unchanged. -/
theorem sys_init_no_side_effect (s : HostState) :
    (sys_init s).1 = s ∧ (sys_init s).1.clocks = s.clocks ∧
      (sys_init s).1.clocksPerSec = s.clocksPerSec ∧
      (sys_init s).1.rest = s.rest :=
  ⟨rfl, rfl, rfl, rfl⟩

/-- Claim C8: `sys_init` is a parameterless, no-return-value operation
that never produces an observable error — in every state its error
channel reports success with the unit (no-value) result, and no `none`
(error) outcome is possible. -/
theorem sys_init_no_error (s : HostState) :
    (sys_init s).2 = some () ∧ (sys_init s).2 ≠ none :=
  ⟨rfl, fun h => Option.noConfusion h⟩

/-- Claim C9: `sys_init` is idempotent — for every `n ≥ 1` and every
starting state, calling it `n` times equals calling it once, and a
`sys_now` call after the repeated `sys_init` calls yields the same
result as with no `sys_init` call at all. -/
theorem sys_init_idempotent (n : Nat) (s : HostState) (hn : 1 ≤ n) :
    sys_init_iter n s = (sys_init s).1 ∧
      (sys_now (sys_init_iter n s)).2 = (sys_now s).2 := by
  have hiter : ∀ k t, sys_init_iter k t = t := by
    intro k
    induction k with
    | zero => exact fun t => rfl
    | succ k ih => exact fun t => ih (sys_init t).1
  exact ⟨hiter n s, by rw [hiter n s]⟩

/-- Witness for claim C9 at `n = 3` and a concrete state. -/
theorem sys_init_idempotent_witness :
    1 ≤ 3 ∧
      (sys_init_iter 3 (HostState.mk 42 1000000 7) =
          (sys_init (HostState.mk 42 1000000 7)).1 ∧
        (sys_now (sys_init_iter 3 (HostState.mk 42 1000000 7))).2 =
          (sys_now (HostState.mk 42 1000000 7)).2) :=
  ⟨by decide, sys_init_idempotent 3 (HostState.mk 42 1000000 7) (by decide)⟩

/-- Claim C10: `sys_now` is deterministic — any two host states that
agree on the counter value `clock()` and on `CLOCKS_PER_SEC` (but may
differ in every other piece of host state) produce identical results;
the output depends on nothing else. -/
theorem sys_now_deterministic (s1 s2 : HostState)
    (hc : s1.clocks = s2.clocks) (hp : s1.clocksPerSec = s2.clocksPerSec) :
    (sys_now s1).2 = (sys_now s2).2 := by
  simp [sys_now, hc, hp]

/-- Witness for claim C10: two states agreeing on the counter and on
`CLOCKS_PER_SEC` but with different remaining host state. -/
theorem sys_now_deterministic_witness :
    (HostState.mk 100 1000000 0).clocks = (HostState.mk 100 1000000 42).clocks ∧
      (HostState.mk 100 1000000 0).clocksPerSec =
        (HostState.mk 100 1000000 42).clocksPerSec ∧
      (sys_now (HostState.mk 100 1000000 0)).2 =
        (sys_now (HostState.mk 100 1000000 42)).2 :=
  ⟨rfl, rfl, sys_now_deterministic (HostState.mk 100 1000000 0)
    (HostState.mk 100 1000000 42) rfl rfl⟩
